import Mathlib

/-!
Verification of the multi-language source-code structural analyzer
(`backend/app/services/code_parser.py`, class `CodeParser`).

The module is embedded shallowly:

* Tree-sitter syntax trees are modelled by `TSNode`: node type tag, source
  text slice (`code[start_byte:end_byte]`), start byte, 0-indexed start/end
  rows, and ordered children.  The tree-sitter parser itself is an external
  library; analysis functions are therefore modelled on the (tree, code)
  pair, where the tree is tree-sitter's parse of the code.  Concrete trees
  used in theorems are transcriptions of the shapes the tree-sitter
  grammars produce for the concrete sources involved.
* A tree-sitter query such as `(function_definition) @function` captures
  every node of the listed type(s), in source (pre-order) position; queries
  are modelled by the list of node types they capture plus a pre-order
  collection function `queryCaptures`.
* Python strings are `String`/`List Char`; byte indexing coincides with
  character indexing on the ASCII inputs that appear in theorems.
* `hashlib.sha256` is modelled by a full SHA-256 implementation over `Nat`
  byte lists, with arithmetic taken modulo 2^32 explicitly.
* A raised Python exception is modelled by `Except.error`.
-/

namespace CodeExplain

/-- Model of a tree-sitter node: type tag, source text of the node
(`code[start_byte:end_byte]`), start byte, start row, end row (0-indexed,
as in `start_point[0]` / `end_point[0]`), and ordered children. -/
inductive TSNode : Type where
  | node (ty : String) (text : String) (startByte : Nat)
      (startRow : Nat) (endRow : Nat) (children : List TSNode)

/-- Node type tag (`node.type` in tree-sitter). -/
def TSNode.type : TSNode → String
  | .node t _ _ _ _ _ => t

/-- Source slice of the node (`code[node.start_byte:node.end_byte]`). -/
def TSNode.text : TSNode → String
  | .node _ x _ _ _ _ => x

/-- Start byte offset of the node (`node.start_byte`). -/
def TSNode.startByte : TSNode → Nat
  | .node _ _ sb _ _ _ => sb

/-- Start row of the node (`node.start_point[0]`, 0-indexed). -/
def TSNode.startRow : TSNode → Nat
  | .node _ _ _ sr _ _ => sr

/-- End row of the node (`node.end_point[0]`, 0-indexed). -/
def TSNode.endRow : TSNode → Nat
  | .node _ _ _ _ er _ => er

/-- Ordered children of the node (`node.children`). -/
def TSNode.children : TSNode → List TSNode
  | .node _ _ _ _ _ cs => cs

mutual
/-- Pre-order collection of every node (the node itself included) whose
type is in `tys`: the model of running a tree-sitter query that captures
the node types `tys` against a tree, as `query.captures` does; tree-sitter
returns captures ordered by source position, which for these queries is
pre-order. -/
def queryCaptures (tys : List String) (n : TSNode) : List TSNode :=
  match n with
  | .node t _ _ _ _ cs =>
      (if tys.contains t then [TSNode.node t n.text n.startByte n.startRow n.endRow cs] else [])
        ++ queryCapturesList tys cs

/-- Pre-order capture collection over a list of sibling subtrees. -/
def queryCapturesList (tys : List String) : List TSNode → List TSNode
  | [] => []
  | c :: cs => queryCaptures tys c ++ queryCapturesList tys cs
end

/-- The capture of a matching node is that node itself. -/
theorem queryCaptures_self (tys : List String) (t x : String) (sb sr er : Nat)
    (cs : List TSNode) :
    queryCaptures tys (.node t x sb sr er cs) =
      (if tys.contains t then [TSNode.node t x sb sr er cs] else [])
        ++ queryCapturesList tys cs := by
  simp [queryCaptures, TSNode.text, TSNode.startByte, TSNode.startRow, TSNode.endRow]

namespace CodeParser

/-- Embedding of `CodeParser.LANGUAGE_MAP`: file extension to language,
in the source dictionary's order. -/
def LANGUAGE_MAP : List (String × String) :=
  [("py", "python"),
   ("js", "javascript"),
   ("jsx", "javascript"),
   ("ts", "typescript"),
   ("tsx", "typescript"),
   ("java", "java"),
   ("c", "c"),
   ("h", "c"),
   ("cpp", "cpp"),
   ("cc", "cpp"),
   ("cxx", "cpp"),
   ("hpp", "cpp"),
   ("hxx", "cpp"),
   ("go", "go"),
   ("rs", "rust")]

/-- Embedding of `CodeParser.SUPPORTED_LANGUAGES`. -/
def SUPPORTED_LANGUAGES : List String :=
  ["python", "javascript", "typescript", "java", "c", "cpp", "go", "rust"]

/-- Python's `s.split(sep)` for a one-character separator: always returns
at least one (possibly empty) segment. -/
def splitOnChar (sep : Char) : List Char → List (List Char)
  | [] => [[]]
  | c :: cs =>
      if c = sep then [] :: splitOnChar sep cs
      else
        match splitOnChar sep cs with
        | [] => [[c]]
        | seg :: rest => (c :: seg) :: rest

/-- A split never produces the empty list of segments. -/
theorem splitOnChar_ne_nil (sep : Char) (l : List Char) :
    splitOnChar sep l ≠ [] := by
  induction l with
  | nil => simp [splitOnChar]
  | cons c cs ih =>
      simp only [splitOnChar]
      by_cases h : c = sep
      · simp [h]
      · simp only [if_neg h]
        cases hs : splitOnChar sep cs with
        | nil => exact absurd hs ih
        | cons seg rest => simp

/-- Splitting a list that does not contain the separator yields the whole
list as the single segment. -/
theorem splitOnChar_of_not_mem (sep : Char) (l : List Char)
    (h : sep ∉ l) : splitOnChar sep l = [l] := by
  induction l with
  | nil => rfl
  | cons c cs ih =>
      simp only [List.mem_cons, not_or] at h
      have hc : ¬ c = sep := fun hc => h.1 hc.symm
      simp only [splitOnChar, if_neg hc, ih h.2]

/-- Embedding of `CodeParser.detect_language`: take the text after the
last `.` of the filename (`filename.split('.')[-1]`), lower-case it, and
look it up in `LANGUAGE_MAP` (`dict.get`, so `none` on a miss). -/
def detect_language (filename : String) : Option String :=
  let ext := String.mk (((splitOnChar '.' filename.data).getLastD []).map Char.toLower)
  LANGUAGE_MAP.lookup ext

/-- Strip the characters of `chars` from both ends of a list: Python's
`str.strip(chars)`. -/
def stripChars (chars : List Char) (l : List Char) : List Char :=
  ((l.dropWhile (chars.contains ·)).reverse.dropWhile (chars.contains ·)).reverse

/-- Strip whitespace from both ends of a list: Python's `str.strip()`. -/
def stripWs (l : List Char) : List Char :=
  ((l.dropWhile Char.isWhitespace).reverse.dropWhile Char.isWhitespace).reverse

/-- Indices at which `pat` occurs in `l` (model of Python substring
search). -/
def subIndices (l pat : List Char) : List Nat :=
  (List.range (l.length + 1)).filter (fun i => pat.isPrefixOf (l.drop i))

/-- Python's `s.rfind(pat)`: the last occurrence index, `none` when
absent. -/
def rfindSub (l pat : List Char) : Option Nat :=
  (subIndices l pat).getLast?

/-- Python's `s.find(pat, start)`: the first occurrence index at or after
`start`, `none` when absent. -/
def findSubFrom (l pat : List Char) (start : Nat) : Option Nat :=
  (subIndices l pat).find? (fun i => start ≤ i)

/-- The grammar objects selected by `CodeParser.__init__` (the external
`tree_sitter_<lang>.language()` values, one per branch of the chain;
the TypeScript branch uses `language_typescript()`). -/
inductive Grammar : Type where
  | python | javascript | typescript | java | c | cpp | go | rust
deriving DecidableEq

/-- The if/elif grammar-selection chain of `CodeParser.__init__`: which
grammar object the body assigns to `self.ts_language` for a given
`language` string (no branch matches for any other string). -/
def grammarOf (language : String) : Option Grammar :=
  if language = "python" then some .python
  else if language = "javascript" then some .javascript
  else if language = "typescript" then some .typescript
  else if language = "java" then some .java
  else if language = "c" then some .c
  else if language = "cpp" then some .cpp
  else if language = "go" then some .go
  else if language = "rust" then some .rust
  else none

/-- Embedding of `CodeParser.__init__`: an unsupported language raises
`ValueError` (modelled as `Except.error` carrying the message); a
supported one selects its grammar.  The inner `.error` branch is
unreachable: every supported language has a grammar branch. -/
def init (language : String) : Except String Grammar :=
  if language ∈ SUPPORTED_LANGUAGES then
    match grammarOf language with
    | some g => .ok g
    | none => .error "AttributeError"
  else
    .error ("Unsupported language: " ++ language ++ ". Supported: "
      ++ String.intercalate ", " SUPPORTED_LANGUAGES)

/-- Embedding of `_get_function_query`, each tree-sitter query string
resolved to the node types it captures (e.g. the source's
`'[(function_declaration) (arrow_function) (function_expression)] @function'`
for JavaScript captures exactly those three node types; `queries.get`
yields the empty query for any other language). -/
def getFunctionQuery : String → List String
  | "python" => ["function_definition"]
  | "javascript" => ["function_declaration", "arrow_function", "function_expression"]
  | "typescript" => ["function_declaration", "arrow_function", "function_expression", "method_definition"]
  | "java" => ["method_declaration"]
  | "c" => ["function_definition"]
  | "cpp" => ["function_definition"]
  | "go" => ["function_declaration"]
  | "rust" => ["function_item"]
  | _ => []

/-- Embedding of `_get_class_query`, each query string resolved to the
node types it captures. -/
def getClassQuery : String → List String
  | "python" => ["class_definition"]
  | "javascript" => ["class_declaration"]
  | "typescript" => ["class_declaration"]
  | "java" => ["class_declaration"]
  | "cpp" => ["class_specifier", "struct_specifier"]
  | "c" => ["struct_specifier"]
  | "go" => ["type_declaration"]
  | "rust" => ["struct_item", "enum_item", "impl_item"]
  | _ => []

/-- Embedding of `_get_import_query`, each query string resolved to the
node types it captures. -/
def getImportQuery : String → List String
  | "python" => ["import_statement", "import_from_statement"]
  | "javascript" => ["import_statement"]
  | "typescript" => ["import_statement"]
  | "java" => ["import_declaration"]
  | "cpp" => ["preproc_include"]
  | "c" => ["preproc_include"]
  | "go" => ["import_declaration"]
  | "rust" => ["use_declaration"]
  | _ => []

/-- Text of the first child whose type is `identifier` (the inner
subchild loops of `_get_function_name` / `_extract_param_identifiers`). -/
def firstIdentifierText : List TSNode → Option String
  | [] => none
  | c :: cs => if c.type = "identifier" then some c.text else firstIdentifierText cs

/-- The child loop of `_get_function_name`: first `identifier` child's
text, or the first `identifier` inside a `function_declarator` /
`method_declarator` child. -/
def findNameInChildren : List TSNode → Option String
  | [] => none
  | c :: cs =>
      if c.type = "identifier" then some c.text
      else if c.type = "function_declarator" ∨ c.type = "method_declarator" then
        match firstIdentifierText c.children with
        | some s => some s
        | none => findNameInChildren cs
      else findNameInChildren cs

/-- Embedding of `_get_function_name` (the `code` slice of a node is the
node's stored `text`). -/
def getFunctionName (n : TSNode) : String :=
  match findNameInChildren n.children with
  | some s => s
  | none =>
      if n.type = "arrow_function" ∨ n.type = "function_expression" ∨ n.type = "lambda" then
        "anonymous"
      else
        match n.children with
        | first :: _ => if first.type = "identifier" then first.text else "anonymous"
        | [] => "anonymous"

/-- The `param_node_types` list of `_get_function_params`. -/
def paramNodeTypes : List String := ["parameters", "parameter_list", "formal_parameters"]

/-- Embedding of `_extract_param_identifiers`. -/
def extractParamIdentifiers (p : TSNode) : List String :=
  p.children.foldl (fun acc c =>
    if c.type = "," ∨ c.type = "(" ∨ c.type = ")" then acc
    else if c.type = "identifier" then acc ++ [c.text]
    else if c.type = "typed_parameter" ∨ c.type = "parameter_declaration"
        ∨ c.type = "formal_parameter" then
      match firstIdentifierText c.children with
      | some s => acc ++ [s]
      | none => acc
    else acc) []

/-- Embedding of `_get_function_params`. -/
def getFunctionParams (n : TSNode) : List String :=
  n.children.foldl (fun acc c =>
    if paramNodeTypes.contains c.type then acc ++ extractParamIdentifiers c
    else if c.type = "function_declarator" ∨ c.type = "method_declarator" then
      c.children.foldl (fun a sc =>
        if paramNodeTypes.contains sc.type then a ++ extractParamIdentifiers sc else a) acc
    else acc) []

/-- One line of the JSDoc cleanup loop in `_get_docstring`: strip the
line, remove a leading `/**` or `*`, skip `*/`-lines (dead: any such line
already matched the `*` branch), keep the line only if non-empty. -/
def jsCleanLine (l : List Char) : Option (List Char) :=
  let s := stripWs l
  let s2 : Option (List Char) :=
    if List.isPrefixOf ['/', '*', '*'] s then some (stripWs (s.drop 3))
    else if List.isPrefixOf ['*'] s then some (stripWs (s.drop 1))
    else if List.isPrefixOf ['*', '/'] s then none
    else some s
  match s2 with
  | none => none
  | some t => if t = [] then none else some t

/-- The JavaScript/TypeScript branch of `_get_docstring`: search the code
before the node's start byte for the last `/**`, find the following `*/`,
and clean up the comment lines. -/
def jsDocBefore (startByte : Nat) (code : String) : Option String :=
  let before := code.data.take startByte
  match rfindSub before ['/', '*', '*'] with
  | none => none
  | some lastJsdoc =>
      match findSubFrom before ['*', '/'] lastJsdoc with
      | none => none
      | some endJsdoc =>
          if lastJsdoc < endJsdoc then
            let comment := (code.data.drop lastJsdoc).take (endJsdoc + 2 - lastJsdoc)
            let cleaned := (splitOnChar '\n' comment).filterMap jsCleanLine
            if cleaned = [] then none
            else some (String.mk (List.intercalate ['\n'] cleaned))
          else none

/-- The Java branch of `_get_docstring`: the raw `/** ... */` slice before
the node's start byte, stripped of surrounding whitespace. -/
def javaDocBefore (startByte : Nat) (code : String) : Option String :=
  let before := code.data.take startByte
  match rfindSub before ['/', '*', '*'] with
  | none => none
  | some lastJavadoc =>
      match findSubFrom before ['*', '/'] lastJavadoc with
      | none => none
      | some endJavadoc =>
          some (String.mk (stripWs ((code.data.drop lastJavadoc).take (endJavadoc + 2 - lastJavadoc))))

/-- Embedding of `_get_docstring`: for Python, the first string expression
statement inside a `block` child, with `"`/`'` stripped from both ends and
then whitespace (`docstring.strip('"\x27').strip()`); for
JavaScript/TypeScript the cleaned JSDoc comment before the node; for Java
the raw JavaDoc slice; `none` for other languages. -/
def getDocstring (lang : String) (n : TSNode) (code : String) : Option String :=
  if lang = "python" then
    n.children.findSome? fun c =>
      if c.type = "block" then
        c.children.findSome? fun st =>
          if st.type = "expression_statement" then
            st.children.findSome? fun e =>
              if e.type = "string" then
                some (String.mk (stripWs (stripChars ['"', '\''] e.text.data)))
              else none
          else none
      else none
  else if lang = "javascript" ∨ lang = "typescript" then
    jsDocBefore n.startByte code
  else if lang = "java" then
    javaDocBefore n.startByte code
  else none

/-- One extracted function (`func_info` in `_extract_functions`). -/
structure FunctionInfo : Type where
  name : String
  params : List String
  start_line : Nat
  end_line : Nat
  docstring : Option String
deriving DecidableEq

/-- Embedding of `_extract_functions`: run the function query, and build
a `FunctionInfo` from every captured node (rows are converted to
1-indexed lines). -/
def extract_functions (lang : String) (root : TSNode) (code : String) : List FunctionInfo :=
  let q := getFunctionQuery lang
  if q.isEmpty then []
  else (queryCaptures q root).map fun n =>
    { name := getFunctionName n
      params := getFunctionParams n
      start_line := n.startRow + 1
      end_line := n.endRow + 1
      docstring := getDocstring lang n code }

/-- The child loop of `_get_class_name`: first child whose type is
`identifier`, `type_identifier` or `field_identifier`. -/
def findClassNameInChildren : List TSNode → Option String
  | [] => none
  | c :: cs =>
      if c.type = "identifier" then some c.text
      else if c.type = "type_identifier" ∨ c.type = "field_identifier" then some c.text
      else findClassNameInChildren cs

/-- Embedding of `_get_class_name`. -/
def getClassName (n : TSNode) : String :=
  match findClassNameInChildren n.children with
  | some s => s
  | none =>
      match n.children with
      | first :: _ => if first.type = "identifier" then first.text else "Anonymous"
      | [] => "Anonymous"

/-- The `method_types` list of `_extract_class_methods`. -/
def methodTypes : List String :=
  ["function_definition", "method_definition", "method_declaration",
   "function_declaration", "function_item"]

/-- The container node types `_extract_class_methods` recurses into. -/
def containerTypes : List String :=
  ["block", "class_body", "declaration_list", "field_declaration_list"]

/-- The name collected for a method node, or nothing when the name is
empty or `"anonymous"` (`if method_name and method_name != "anonymous"`). -/
def methodNameOf (n : TSNode) : List String :=
  let nm := getFunctionName n
  if nm ≠ "" ∧ nm ≠ "anonymous" then [nm] else []

mutual
/-- Embedding of `extract_methods_recursive` in `_extract_class_methods`:
collect the node itself when it is method-shaped, then walk the children,
recursing into container-shaped children and collecting method-shaped
children directly. -/
def extractMethodsRec : TSNode → List String
  | .node t x sb sr er cs =>
      (if methodTypes.contains t then methodNameOf (.node t x sb sr er cs) else [])
        ++ extractMethodsRecList cs

/-- The child loop of `extract_methods_recursive`. -/
def extractMethodsRecList : List TSNode → List String
  | [] => []
  | c :: cs =>
      (if containerTypes.contains c.type then extractMethodsRec c
       else if methodTypes.contains c.type then methodNameOf c
       else []) ++ extractMethodsRecList cs
end

/-- Embedding of `_extract_class_methods`. -/
def extract_class_methods (class_node : TSNode) : List String :=
  extractMethodsRec class_node

/-- One extracted class (`class_info` in `_extract_classes`). -/
structure ClassInfo : Type where
  name : String
  start_line : Nat
  end_line : Nat
  methods : List String
deriving DecidableEq

/-- Embedding of `_extract_classes`. -/
def extract_classes (lang : String) (root : TSNode) (code : String) : List ClassInfo :=
  let q := getClassQuery lang
  if q.isEmpty then []
  else (queryCaptures q root).map fun n =>
    { name := getClassName n
      start_line := n.startRow + 1
      end_line := n.endRow + 1
      methods := extract_class_methods n }

/-- Embedding of `_extract_imports`: the stripped source slice of every
captured import node. -/
def extract_imports (lang : String) (root : TSNode) (code : String) : List String :=
  let q := getImportQuery lang
  if q.isEmpty then []
  else (queryCaptures q root).map fun n => String.mk (stripWs n.text.data)

/-- The `decision_nodes` list of `_calculate_complexity`. -/
def decisionNodes : List String :=
  ["if_statement", "if_expression", "elif_clause", "else_clause",
   "while_statement", "for_statement", "for_in_statement", "for_range_loop",
   "loop_expression",
   "case_statement", "switch_statement", "match_expression",
   "catch_clause", "try_statement",
   "conditional_expression", "ternary_expression",
   "binary_expression"]

/-- The operator child types for which a `binary_expression` counts as a
decision point. -/
def logicalOperatorTypes : List String := ["&&", "||", "and", "or"]

mutual
/-- Embedding of `count_decisions` in `_calculate_complexity`: a node in
`decision_nodes` contributes 1, except that a `binary_expression`
contributes 1 only when some child is a logical operator token; children
are counted recursively. -/
def countDecisions : TSNode → Nat
  | .node t _ _ _ _ cs =>
      (if decisionNodes.contains t then
         if t = "binary_expression" then
           if cs.any (fun c => logicalOperatorTypes.contains c.type) then 1 else 0
         else 1
       else 0) + countDecisionsList cs

/-- Decision count summed over a list of sibling subtrees. -/
def countDecisionsList : List TSNode → Nat
  | [] => 0
  | c :: cs => countDecisions c + countDecisionsList cs
end

/-- Embedding of `_calculate_complexity`: base complexity 1 plus the
decision count of the tree. -/
def calculate_complexity (root : TSNode) : Nat :=
  1 + countDecisions root

mutual
/-- Embedding of `_count_nodes`: total number of AST nodes. -/
def countNodes : TSNode → Nat
  | .node _ _ _ _ _ cs => 1 + countNodesList cs

/-- Node count summed over a list of sibling subtrees. -/
def countNodesList : List TSNode → Nat
  | [] => 0
  | c :: cs => countNodes c + countNodesList cs
end

mutual
/-- Embedding of `_calculate_depth`: a leaf returns the current depth,
otherwise the maximum over the children at depth + 1. -/
def calcDepth : TSNode → Nat → Nat
  | .node _ _ _ _ _ [], d => d
  | .node _ _ _ _ _ (c :: cs), d => calcDepthList (c :: cs) (d + 1)

/-- Maximum child depth over a non-empty list of children (0 for the
empty list, which `calcDepth` never passes). -/
def calcDepthList : List TSNode → Nat → Nat
  | [], _ => 0
  | c :: cs, d => max (calcDepth c d) (calcDepthList cs d)
end

/-- The summary statistics record of `_generate_summary`. -/
structure SummaryStats : Type where
  total_lines : Nat
  non_empty_lines : Nat
  node_count : Nat
  max_depth : Nat
deriving DecidableEq

/-- Embedding of `_generate_summary`: line counts from `code.split('\n')`
plus node count and maximum depth of the tree. -/
def generate_summary (root : TSNode) (code : String) : SummaryStats :=
  let lines := splitOnChar '\n' code.data
  { total_lines := lines.length
    non_empty_lines := (lines.filter (fun l => stripWs l ≠ [])).length
    node_count := countNodes root
    max_depth := calcDepth root 0 }

/-- The full result dictionary of `CodeParser.parse`. -/
structure ParseResult : Type where
  functions : List FunctionInfo
  classes : List ClassInfo
  imports : List String
  complexity : Nat
  summary : SummaryStats
deriving DecidableEq

/-- Embedding of `CodeParser.parse`: the tree-sitter parser (external
library) turns `code` into `root`; the five analyses are then pure
functions of the (tree, code) pair. -/
def parse (lang : String) (root : TSNode) (code : String) : ParseResult :=
  { functions := extract_functions lang root code
    classes := extract_classes lang root code
    imports := extract_imports lang root code
    complexity := calculate_complexity root
    summary := generate_summary root code }

/-! Model of `hashlib.sha256(...).hexdigest()` as used by
`CodeParser.get_content_hash`: a complete SHA-256 (FIPS 180-4) over byte
lists, with 32-bit words represented as `Nat` reduced modulo `2 ^ 32`. -/

/-- All-ones 32-bit mask, used for bitwise complement. -/
def mask32 : Nat := 4294967295

/-- Addition modulo `2 ^ 32`. -/
def add32 (a b : Nat) : Nat := (a + b) % 4294967296

/-- Right rotation of a 32-bit word by `n` bits. -/
def rotr32 (n x : Nat) : Nat := (x / 2 ^ n + (x % 2 ^ n) * 2 ^ (32 - n)) % 4294967296

/-- Three-way bitwise exclusive or. -/
def xor3 (a b c : Nat) : Nat := Nat.xor (Nat.xor a b) c

/-- The σ0 message-schedule function of SHA-256. -/
def ssig0 (w : Nat) : Nat := xor3 (rotr32 7 w) (rotr32 18 w) (Nat.shiftRight w 3)

/-- The σ1 message-schedule function of SHA-256. -/
def ssig1 (w : Nat) : Nat := xor3 (rotr32 17 w) (rotr32 19 w) (Nat.shiftRight w 10)

/-- The Σ0 compression function of SHA-256. -/
def bsig0 (a : Nat) : Nat := xor3 (rotr32 2 a) (rotr32 13 a) (rotr32 22 a)

/-- The Σ1 compression function of SHA-256. -/
def bsig1 (e : Nat) : Nat := xor3 (rotr32 6 e) (rotr32 11 e) (rotr32 25 e)

/-- The Ch choice function of SHA-256. -/
def chf (e f g : Nat) : Nat := Nat.xor (Nat.land e f) (Nat.land (Nat.xor e mask32) g)

/-- The Maj majority function of SHA-256. -/
def majf (a b c : Nat) : Nat := Nat.xor (Nat.xor (Nat.land a b) (Nat.land a c)) (Nat.land b c)

/-- The 64 SHA-256 round constants (FIPS 180-4, written in decimal). -/
def sha256K : List Nat :=
  [1116352408, 1899447441, 3049323471, 3921009573, 961987163, 1508970993,
   2453635748, 2870763221, 3624381080, 310598401, 607225278, 1426881987,
   1925078388, 2162078206, 2614888103, 3248222580, 3835390401, 4022224774,
   264347078, 604807628, 770255983, 1249150122, 1555081692, 1996064986,
   2554220882, 2821834349, 2952996808, 3210313671, 3336571891, 3584528711,
   113926993, 338241895, 666307205, 773529912, 1294757372, 1396182291,
   1695183700, 1986661051, 2177026350, 2456956037, 2730485921, 2820302411,
   3259730800, 3345764771, 3516065817, 3600352804, 4094571909, 275423344,
   430227734, 506948616, 659060556, 883997877, 958139571, 1322822218,
   1537002063, 1747873779, 1955562222, 2024104815, 2227730452, 2361852424,
   2428436474, 2756734187, 3204031479, 3329325298]

/-- The eight 32-bit working variables of SHA-256. -/
structure Sha256State : Type where
  a : Nat
  b : Nat
  c : Nat
  d : Nat
  e : Nat
  f : Nat
  g : Nat
  h : Nat

/-- The SHA-256 initial hash value (FIPS 180-4, written in decimal). -/
def sha256Init : Sha256State :=
  ⟨1779033703, 3144134277, 1013904242, 2773480762,
   1359893119, 2600822924, 528734635, 1541459225⟩

/-- One SHA-256 compression round; `kw` is the round constant plus the
schedule word, already reduced modulo `2 ^ 32`. -/
def sha256Round (st : Sha256State) (kw : Nat) : Sha256State :=
  let t1 := add32 (add32 (add32 st.h (bsig1 st.e)) (chf st.e st.f st.g)) kw
  let t2 := add32 (bsig0 st.a) (majf st.a st.b st.c)
  ⟨add32 t1 t2, st.a, st.b, st.c, add32 st.d t1, st.e, st.f, st.g⟩

/-- Pack a byte list into big-endian 32-bit words. -/
def toWords : List Nat → List Nat
  | b0 :: b1 :: b2 :: b3 :: rest => (((b0 * 256 + b1) * 256 + b2) * 256 + b3) :: toWords rest
  | _ => []

/-- Extend the 16-word message schedule by `n` further words. -/
def extendWords : Nat → List Nat → List Nat
  | 0, w => w
  | n + 1, w =>
      let i := w.length
      let nw := add32 (add32 (w.getD (i - 16) 0) (ssig0 (w.getD (i - 15) 0)))
                      (add32 (w.getD (i - 7) 0) (ssig1 (w.getD (i - 2) 0)))
      extendWords n (w ++ [nw])

/-- Compress one 64-byte chunk into the running state. -/
def processChunk (st : Sha256State) (chunk : List Nat) : Sha256State :=
  let w := extendWords 48 (toWords chunk)
  let kw := List.zipWith add32 sha256K w
  let fin := kw.foldl sha256Round st
  ⟨add32 st.a fin.a, add32 st.b fin.b, add32 st.c fin.c, add32 st.d fin.d,
   add32 st.e fin.e, add32 st.f fin.f, add32 st.g fin.g, add32 st.h fin.h⟩

/-- Big-endian byte representation of `n` in `k` bytes. -/
def beBytes : Nat → Nat → List Nat
  | 0, _ => []
  | k + 1, n => beBytes k (n / 256) ++ [n % 256]

/-- SHA-256 padding: a `0x80` byte, zeros to 56 modulo 64, and the
message bit length in 8 big-endian bytes. -/
def padMessage (msg : List Nat) : List Nat :=
  let len := msg.length
  let zeros := (64 + 56 - (len + 1) % 64) % 64
  msg ++ [0x80] ++ List.replicate zeros 0 ++ beBytes 8 (len * 8)

/-- Split a byte list into 64-byte chunks (fuel-indexed so that the
definition is structurally recursive; any fuel at least the list length
gives all chunks). -/
def chunksOf64 : Nat → List Nat → List (List Nat)
  | 0, _ => []
  | _ + 1, [] => []
  | fuel + 1, x :: xs => (x :: xs).take 64 :: chunksOf64 fuel ((x :: xs).drop 64)

/-- SHA-256 of a byte list, as the final eight-word state. -/
def sha256Words (msg : List Nat) : Sha256State :=
  let padded := padMessage msg
  (chunksOf64 padded.length padded).foldl processChunk sha256Init

/-- Big-endian byte decomposition of one 32-bit word. -/
def wordBytes (w : Nat) : List Nat :=
  [w / 0x1000000 % 256, w / 0x10000 % 256, w / 0x100 % 256, w % 256]

/-- The 32 digest bytes of a final state. -/
def stateBytes (st : Sha256State) : List Nat :=
  wordBytes st.a ++ wordBytes st.b ++ wordBytes st.c ++ wordBytes st.d ++
  wordBytes st.e ++ wordBytes st.f ++ wordBytes st.g ++ wordBytes st.h

/-- Lower-case hexadecimal digit for a value below 16. -/
def hexDigit (n : Nat) : Char := "0123456789abcdef".data.getD n '0'

/-- Two-character lower-case hexadecimal form of one byte. -/
def byteHex (b : Nat) : List Char := [hexDigit (b / 16 % 16), hexDigit (b % 16)]

/-- Hexadecimal encoding of a byte list (`hexdigest`). -/
def hexOfBytes (bs : List Nat) : List Char := bs.flatMap byteHex

/-- SHA-256 hex digest of a byte list: the model of
`hashlib.sha256(bytes).hexdigest()`. -/
def sha256hex (msg : List Nat) : String := String.mk (hexOfBytes (stateBytes (sha256Words msg)))

/-- UTF-8 encoding of one character (Python's `str.encode()` with the
default encoding). -/
def utf8Bytes (c : Char) : List Nat :=
  let n := c.toNat
  if n < 0x80 then [n]
  else if n < 0x800 then [0xC0 + n / 0x40, 0x80 + n % 0x40]
  else if n < 0x10000 then [0xE0 + n / 0x1000, 0x80 + n / 0x40 % 0x40, 0x80 + n % 0x40]
  else [0xF0 + n / 0x40000, 0x80 + n / 0x1000 % 0x40, 0x80 + n / 0x40 % 0x40, 0x80 + n % 0x40]

/-- UTF-8 byte encoding of a string (`code.encode()`). -/
def encodeUTF8 (s : String) : List Nat := s.data.flatMap utf8Bytes

/-- Embedding of `CodeParser.get_content_hash`:
`hashlib.sha256(code.encode()).hexdigest()`. -/
def get_content_hash (code : String) : String :=
  sha256hex (encodeUTF8 code)

end CodeParser

/-! Concrete syntax trees used in the theorems.  Each is a transcription
of the tree the corresponding tree-sitter grammar produces for the
concrete source text involved; node texts are the source slices. -/

/-- Leaf tree node. -/
def leaf (t x : String) (sb sr : Nat) : TSNode := .node t x sb sr sr []

/-- Root node type of each grammar (the node type of the parse of the
empty string, which has no children). -/
def rootType : String → String
  | "python" => "module"
  | "javascript" => "program"
  | "typescript" => "program"
  | "java" => "program"
  | "c" => "translation_unit"
  | "cpp" => "translation_unit"
  | "go" => "source_file"
  | "rust" => "source_file"
  | _ => "ERROR"

/-- The tree tree-sitter produces for the empty source in each supported
language: the bare root node with no children. -/
def emptyRoot (lang : String) : TSNode := .node (rootType lang) "" 0 0 0 []

/-- The two-function Python source of the spec's round-trip scenario. -/
def pyTwoFnSource : String :=
  "def calculate_sum(a, b):\n    \"\"\"Calculate sum of two numbers\"\"\"\n    return a + b\n\ndef multiply(x, y):\n    return x * y"

/-- Tree-sitter-python parse of `pyTwoFnSource`. -/
def pyTwoFnTree : TSNode :=
  .node "module" pyTwoFnSource 0 0 5
    [.node "function_definition"
       "def calculate_sum(a, b):\n    \"\"\"Calculate sum of two numbers\"\"\"\n    return a + b" 0 0 2
       [leaf "def" "def" 0 0,
        leaf "identifier" "calculate_sum" 4 0,
        .node "parameters" "(a, b)" 17 0 0
          [leaf "(" "(" 17 0, leaf "identifier" "a" 18 0, leaf "," "," 19 0,
           leaf "identifier" "b" 21 0, leaf ")" ")" 22 0],
        leaf ":" ":" 23 0,
        .node "block" "\"\"\"Calculate sum of two numbers\"\"\"\n    return a + b" 29 1 2
          [.node "expression_statement" "\"\"\"Calculate sum of two numbers\"\"\"" 29 1 1
             [.node "string" "\"\"\"Calculate sum of two numbers\"\"\"" 29 1 1
                [leaf "string_start" "\"\"\"" 29 1,
                 leaf "string_content" "Calculate sum of two numbers" 32 1,
                 leaf "string_end" "\"\"\"" 60 1]],
           .node "return_statement" "return a + b" 68 2 2
             [leaf "return" "return" 68 2,
              .node "binary_operator" "a + b" 75 2 2
                [leaf "identifier" "a" 75 2, leaf "+" "+" 77 2, leaf "identifier" "b" 79 2]]]],
     .node "function_definition" "def multiply(x, y):\n    return x * y" 82 4 5
       [leaf "def" "def" 82 4,
        leaf "identifier" "multiply" 86 4,
        .node "parameters" "(x, y)" 94 4 4
          [leaf "(" "(" 94 4, leaf "identifier" "x" 95 4, leaf "," "," 96 4,
           leaf "identifier" "y" 98 4, leaf ")" ")" 99 4],
        leaf ":" ":" 100 4,
        .node "block" "return x * y" 106 5 5
          [.node "return_statement" "return x * y" 106 5 5
             [leaf "return" "return" 106 5,
              .node "binary_operator" "x * y" 113 5 5
                [leaf "identifier" "x" 113 5, leaf "*" "*" 115 5, leaf "identifier" "y" 117 5]]]]]

/-- The JavaScript class source of the spec's class-extraction scenario. -/
def jsClassSource : String :=
  "class Person \x7b\n    constructor(name) \x7b\n        this.name = name;\n    \x7d\n\n    greet() \x7b\n        return 42;\n    \x7d\n\x7d"

/-- Tree-sitter-javascript parse of `jsClassSource`.  Method names are
`property_identifier` nodes in this grammar. -/
def jsClassTree : TSNode :=
  .node "program" jsClassSource 0 0 8
    [.node "class_declaration" jsClassSource 0 0 8
       [leaf "class" "class" 0 0,
        leaf "identifier" "Person" 6 0,
        .node "class_body"
          "\x7b\n    constructor(name) \x7b\n        this.name = name;\n    \x7d\n\n    greet() \x7b\n        return 42;\n    \x7d\n\x7d" 13 0 8
          [leaf "\x7b" "\x7b" 13 0,
           .node "method_definition" "constructor(name) \x7b\n        this.name = name;\n    \x7d" 19 1 3
             [leaf "property_identifier" "constructor" 19 1,
              .node "formal_parameters" "(name)" 30 1 1
                [leaf "(" "(" 30 1, leaf "identifier" "name" 31 1, leaf ")" ")" 35 1],
              .node "statement_block" "\x7b\n        this.name = name;\n    \x7d" 37 1 3
                [leaf "\x7b" "\x7b" 37 1,
                 leaf "expression_statement" "this.name = name;" 47 2,
                 leaf "\x7d" "\x7d" 69 3]],
           .node "method_definition" "greet() \x7b\n        return 42;\n    \x7d" 76 5 7
             [leaf "property_identifier" "greet" 76 5,
              .node "formal_parameters" "()" 81 5 5
                [leaf "(" "(" 81 5, leaf ")" ")" 82 5],
              .node "statement_block" "\x7b\n        return 42;\n    \x7d" 84 5 7
                [leaf "\x7b" "\x7b" 84 5,
                 leaf "return_statement" "return 42;" 94 6,
                 leaf "\x7d" "\x7d" 108 7]],
           leaf "\x7d" "\x7d" 110 8]]]

/-- The Rust struct/enum/impl source of the spec's class-extraction
scenario. -/
def rustClassSource : String :=
  "struct Point \x7b\n    x: i32,\n    y: i32,\n\x7d\n\nenum Color \x7b\n    Red,\n    Green,\n\x7d\n\nimpl Point \x7b\n    fn new(x: i32, y: i32) -> Point \x7b\n        Point \x7b x, y \x7d\n    \x7d\n\x7d"

/-- Tree-sitter-rust parse of `rustClassSource`. -/
def rustClassTree : TSNode :=
  .node "source_file" rustClassSource 0 0 14
    [.node "struct_item" "struct Point \x7b\n    x: i32,\n    y: i32,\n\x7d" 0 0 3
       [leaf "struct" "struct" 0 0,
        leaf "type_identifier" "Point" 7 0,
        .node "field_declaration_list" "\x7b\n    x: i32,\n    y: i32,\n\x7d" 13 0 3
          [leaf "\x7b" "\x7b" 13 0,
           .node "field_declaration" "x: i32" 19 1 1
             [leaf "field_identifier" "x" 19 1, leaf ":" ":" 20 1, leaf "primitive_type" "i32" 22 1],
           leaf "," "," 25 1,
           .node "field_declaration" "y: i32" 31 2 2
             [leaf "field_identifier" "y" 31 2, leaf ":" ":" 32 2, leaf "primitive_type" "i32" 34 2],
           leaf "," "," 37 2,
           leaf "\x7d" "\x7d" 39 3]],
     .node "enum_item" "enum Color \x7b\n    Red,\n    Green,\n\x7d" 42 5 8
       [leaf "enum" "enum" 42 5,
        leaf "type_identifier" "Color" 47 5,
        .node "enum_variant_list" "\x7b\n    Red,\n    Green,\n\x7d" 53 5 8
          [leaf "\x7b" "\x7b" 53 5,
           .node "enum_variant" "Red" 59 6 6 [leaf "identifier" "Red" 59 6],
           leaf "," "," 62 6,
           .node "enum_variant" "Green" 68 7 7 [leaf "identifier" "Green" 68 7],
           leaf "," "," 73 7,
           leaf "\x7d" "\x7d" 75 8]],
     .node "impl_item" "impl Point \x7b\n    fn new(x: i32, y: i32) -> Point \x7b\n        Point \x7b x, y \x7d\n    \x7d\n\x7d" 78 10 14
       [leaf "impl" "impl" 78 10,
        leaf "type_identifier" "Point" 83 10,
        .node "declaration_list" "\x7b\n    fn new(x: i32, y: i32) -> Point \x7b\n        Point \x7b x, y \x7d\n    \x7d\n\x7d" 89 10 14
          [leaf "\x7b" "\x7b" 89 10,
           .node "function_item" "fn new(x: i32, y: i32) -> Point \x7b\n        Point \x7b x, y \x7d\n    \x7d" 95 11 13
             [leaf "fn" "fn" 95 11,
              leaf "identifier" "new" 98 11,
              .node "parameters" "(x: i32, y: i32)" 101 11 11
                [leaf "(" "(" 101 11,
                 .node "parameter" "x: i32" 102 11 11
                   [leaf "identifier" "x" 102 11, leaf ":" ":" 103 11, leaf "primitive_type" "i32" 105 11],
                 leaf "," "," 108 11,
                 .node "parameter" "y: i32" 110 11 11
                   [leaf "identifier" "y" 110 11, leaf ":" ":" 111 11, leaf "primitive_type" "i32" 113 11],
                 leaf ")" ")" 116 11],
              leaf "->" "->" 118 11,
              leaf "type_identifier" "Point" 121 11,
              .node "block" "\x7b\n        Point \x7b x, y \x7d\n    \x7d" 127 11 13
                [leaf "\x7b" "\x7b" 127 11,
                 .node "struct_expression" "Point \x7b x, y \x7d" 137 12 12
                   [leaf "type_identifier" "Point" 137 12,
                    .node "field_initializer_list" "\x7b x, y \x7d" 143 12 12
                      [leaf "\x7b" "\x7b" 143 12,
                       leaf "shorthand_field_initializer" "x" 145 12,
                       leaf "," "," 146 12,
                       leaf "shorthand_field_initializer" "y" 148 12,
                       leaf "\x7d" "\x7d" 150 12]],
                 leaf "\x7d" "\x7d" 152 13]],
           leaf "\x7d" "\x7d" 154 14]]]

/-- Python function with an `if` nested in a `for` nested in an `if`:
`def f(x, y):` / `if x:` / `for i in y:` / `if i:` / `return 1` /
`return 0` (tree-sitter-python parse). -/
def pyNestedTree : TSNode :=
  .node "module" "" 0 0 5
    [.node "function_definition" "" 0 0 5
       [leaf "def" "def" 0 0,
        leaf "identifier" "f" 4 0,
        .node "parameters" "(x, y)" 5 0 0
          [leaf "(" "(" 5 0, leaf "identifier" "x" 6 0, leaf "," "," 7 0,
           leaf "identifier" "y" 9 0, leaf ")" ")" 10 0],
        leaf ":" ":" 11 0,
        .node "block" "" 17 1 5
          [.node "if_statement" "" 17 1 4
             [leaf "if" "if" 17 1,
              leaf "identifier" "x" 20 1,
              leaf ":" ":" 21 1,
              .node "block" "" 31 2 4
                [.node "for_statement" "" 31 2 4
                   [leaf "for" "for" 31 2,
                    leaf "identifier" "i" 35 2,
                    leaf "in" "in" 37 2,
                    leaf "identifier" "y" 40 2,
                    leaf ":" ":" 41 2,
                    .node "block" "" 55 3 4
                      [.node "if_statement" "" 55 3 4
                         [leaf "if" "if" 55 3,
                          leaf "identifier" "i" 58 3,
                          leaf ":" ":" 59 3,
                          .node "block" "" 77 4 4
                            [.node "return_statement" "return 1" 77 4 4
                               [leaf "return" "return" 77 4, leaf "integer" "1" 84 4]]]]]]],
           .node "return_statement" "return 0" 90 5 5
             [leaf "return" "return" 90 5, leaf "integer" "0" 97 5]]]]

/-- Python function with no branching: `def g(x):` / `return x`
(tree-sitter-python parse). -/
def pyPlainTree : TSNode :=
  .node "module" "" 0 0 1
    [.node "function_definition" "" 0 0 1
       [leaf "def" "def" 0 0,
        leaf "identifier" "g" 4 0,
        .node "parameters" "(x)" 5 0 0
          [leaf "(" "(" 5 0, leaf "identifier" "x" 6 0, leaf ")" ")" 7 0],
        leaf ":" ":" 8 0,
        .node "block" "return x" 14 1 1
          [.node "return_statement" "return x" 14 1 1
             [leaf "return" "return" 14 1, leaf "identifier" "x" 21 1]]]]

/-- Java method with an `if` nested in a `for` nested in an `if`
(tree-sitter-java parse of a class wrapping that method). -/
def javaNestedTree : TSNode :=
  .node "program" "" 0 0 11
    [.node "class_declaration" "" 0 0 11
       [leaf "class" "class" 0 0,
        leaf "identifier" "A" 6 0,
        .node "class_body" "" 8 0 11
          [leaf "\x7b" "\x7b" 8 0,
           .node "method_declaration" "" 14 1 10
             [leaf "integral_type" "int" 14 1,
              leaf "identifier" "f" 18 1,
              .node "formal_parameters" "(int x)" 19 1 1
                [leaf "(" "(" 19 1,
                 .node "formal_parameter" "int x" 20 1 1
                   [leaf "integral_type" "int" 20 1, leaf "identifier" "x" 24 1],
                 leaf ")" ")" 25 1],
              .node "block" "" 27 1 10
                [leaf "\x7b" "\x7b" 27 1,
                 .node "if_statement" "" 37 2 8
                   [leaf "if" "if" 37 2,
                    .node "parenthesized_expression" "(x > 0)" 40 2 2
                      [leaf "(" "(" 40 2,
                       .node "binary_expression" "x > 0" 41 2 2
                         [leaf "identifier" "x" 41 2, leaf ">" ">" 43 2, leaf "decimal_integer_literal" "0" 45 2],
                       leaf ")" ")" 46 2],
                    .node "block" "" 48 2 8
                      [leaf "\x7b" "\x7b" 48 2,
                       .node "for_statement" "" 62 3 7
                         [leaf "for" "for" 62 3,
                          leaf "(" "(" 66 3,
                          .node "local_variable_declaration" "int i = 0;" 67 3 3
                            [leaf "integral_type" "int" 67 3,
                             .node "variable_declarator" "i = 0" 71 3 3
                               [leaf "identifier" "i" 71 3, leaf "=" "=" 73 3, leaf "decimal_integer_literal" "0" 75 3],
                             leaf ";" ";" 76 3],
                          .node "binary_expression" "i < x" 78 3 3
                            [leaf "identifier" "i" 78 3, leaf "<" "<" 80 3, leaf "identifier" "x" 82 3],
                          leaf ";" ";" 83 3,
                          .node "assignment_expression" "i = i + 1" 85 3 3
                            [leaf "identifier" "i" 85 3, leaf "=" "=" 87 3,
                             .node "binary_expression" "i + 1" 89 3 3
                               [leaf "identifier" "i" 89 3, leaf "+" "+" 91 3, leaf "decimal_integer_literal" "1" 93 3]],
                          leaf ")" ")" 94 3,
                          .node "block" "" 96 3 7
                            [leaf "\x7b" "\x7b" 96 3,
                             .node "if_statement" "" 114 4 6
                               [leaf "if" "if" 114 4,
                                .node "parenthesized_expression" "(x > i)" 117 4 4
                                  [leaf "(" "(" 117 4,
                                   .node "binary_expression" "x > i" 118 4 4
                                     [leaf "identifier" "x" 118 4, leaf ">" ">" 120 4, leaf "identifier" "i" 122 4],
                                   leaf ")" ")" 123 4],
                                .node "block" "" 125 4 6
                                  [leaf "\x7b" "\x7b" 125 4,
                                   .node "return_statement" "return 1;" 147 5 5
                                     [leaf "return" "return" 147 5, leaf "decimal_integer_literal" "1" 154 5, leaf ";" ";" 155 5],
                                   leaf "\x7d" "\x7d" 173 6]],
                             leaf "\x7d" "\x7d" 187 7]],
                       leaf "\x7d" "\x7d" 197 8]],
                 .node "return_statement" "return 0;" 207 9 9
                   [leaf "return" "return" 207 9, leaf "decimal_integer_literal" "0" 214 9, leaf ";" ";" 215 9],
                 leaf "\x7d" "\x7d" 221 10]],
           leaf "\x7d" "\x7d" 223 11]]]

/-- Java method with no branching (tree-sitter-java parse). -/
def javaPlainTree : TSNode :=
  .node "program" "" 0 0 4
    [.node "class_declaration" "" 0 0 4
       [leaf "class" "class" 0 0,
        leaf "identifier" "B" 6 0,
        .node "class_body" "" 8 0 4
          [leaf "\x7b" "\x7b" 8 0,
           .node "method_declaration" "" 14 1 3
             [leaf "integral_type" "int" 14 1,
              leaf "identifier" "g" 18 1,
              .node "formal_parameters" "(int x)" 19 1 1
                [leaf "(" "(" 19 1,
                 .node "formal_parameter" "int x" 20 1 1
                   [leaf "integral_type" "int" 20 1, leaf "identifier" "x" 24 1],
                 leaf ")" ")" 25 1],
              .node "block" "" 27 1 3
                [leaf "\x7b" "\x7b" 27 1,
                 .node "return_statement" "return x;" 37 2 2
                   [leaf "return" "return" 37 2, leaf "identifier" "x" 44 2, leaf ";" ";" 45 2],
                 leaf "\x7d" "\x7d" 51 3]],
           leaf "\x7d" "\x7d" 53 4]]]

/-- Rust function with an `if` nested in a `for` nested in an `if`
(tree-sitter-rust parse; the loop is a `for_expression` node). -/
def rustNestedTree : TSNode :=
  .node "source_file" "" 0 0 9
    [.node "function_item" "" 0 0 9
       [leaf "fn" "fn" 0 0,
        leaf "identifier" "f" 3 0,
        .node "parameters" "(x: i32, y: i32)" 4 0 0
          [leaf "(" "(" 4 0,
           .node "parameter" "x: i32" 5 0 0
             [leaf "identifier" "x" 5 0, leaf ":" ":" 6 0, leaf "primitive_type" "i32" 8 0],
           leaf "," "," 11 0,
           .node "parameter" "y: i32" 13 0 0
             [leaf "identifier" "y" 13 0, leaf ":" ":" 14 0, leaf "primitive_type" "i32" 16 0],
           leaf ")" ")" 19 0],
        leaf "->" "->" 21 0,
        leaf "primitive_type" "i32" 24 0,
        .node "block" "" 28 0 9
          [leaf "\x7b" "\x7b" 28 0,
           .node "expression_statement" "" 34 1 7
             [.node "if_expression" "" 34 1 7
                [leaf "if" "if" 34 1,
                 .node "binary_expression" "x > 0" 37 1 1
                   [leaf "identifier" "x" 37 1, leaf ">" ">" 39 1, leaf "integer_literal" "0" 41 1],
                 .node "block" "" 43 1 7
                   [leaf "\x7b" "\x7b" 43 1,
                    .node "expression_statement" "" 53 2 6
                      [.node "for_expression" "" 53 2 6
                         [leaf "for" "for" 53 2,
                          leaf "identifier" "i" 57 2,
                          leaf "in" "in" 59 2,
                          .node "range_expression" "0..y" 62 2 2
                            [leaf "integer_literal" "0" 62 2, leaf ".." ".." 63 2, leaf "identifier" "y" 65 2],
                          .node "block" "" 67 2 6
                            [leaf "\x7b" "\x7b" 67 2,
                             .node "expression_statement" "" 81 3 5
                               [.node "if_expression" "" 81 3 5
                                  [leaf "if" "if" 81 3,
                                   .node "binary_expression" "i > x" 84 3 3
                                     [leaf "identifier" "i" 84 3, leaf ">" ">" 86 3, leaf "identifier" "x" 88 3],
                                   .node "block" "" 90 3 5
                                     [leaf "\x7b" "\x7b" 90 3,
                                      .node "expression_statement" "return 1;" 108 4 4
                                        [.node "return_expression" "return 1" 108 4 4
                                           [leaf "return" "return" 108 4, leaf "integer_literal" "1" 115 4],
                                         leaf ";" ";" 116 4],
                                      leaf "\x7d" "\x7d" 130 5]]],
                             leaf "\x7d" "\x7d" 140 6]]],
                    leaf "\x7d" "\x7d" 146 7]]],
           leaf "integer_literal" "0" 152 8,
           leaf "\x7d" "\x7d" 154 9]]]

/-- Rust function with no branching (tree-sitter-rust parse). -/
def rustPlainTree : TSNode :=
  .node "source_file" "" 0 0 2
    [.node "function_item" "" 0 0 2
       [leaf "fn" "fn" 0 0,
        leaf "identifier" "g" 3 0,
        .node "parameters" "(x: i32)" 4 0 0
          [leaf "(" "(" 4 0,
           .node "parameter" "x: i32" 5 0 0
             [leaf "identifier" "x" 5 0, leaf ":" ":" 6 0, leaf "primitive_type" "i32" 8 0],
           leaf ")" ")" 11 0],
        leaf "->" "->" 13 0,
        leaf "primitive_type" "i32" 16 0,
        .node "block" "\x7b\n    x\n\x7d" 20 0 2
          [leaf "\x7b" "\x7b" 20 0, leaf "identifier" "x" 26 1, leaf "\x7d" "\x7d" 28 2]]]

/-! Helper lemmas shared by the claim theorems. -/

open CodeParser

/-- The hex encoding of a byte list has twice its length. -/
theorem hexOfBytes_length (bs : List Nat) : (hexOfBytes bs).length = 2 * bs.length := by
  induction bs with
  | nil => rfl
  | cons b bs ih =>
      simp only [hexOfBytes, List.flatMap_cons] at *
      simp [byteHex, ih, Nat.mul_add, Nat.mul_succ]

/-- A final SHA-256 state always yields exactly 32 digest bytes. -/
theorem stateBytes_length (st : Sha256State) : (stateBytes st).length = 32 := by
  simp [stateBytes, wordBytes]

/-- The joined list of supported languages, as it appears in the error
message of `CodeParser.__init__`. -/
theorem intercalate_supported :
    String.intercalate ", " SUPPORTED_LANGUAGES =
      "python, javascript, typescript, java, c, cpp, go, rust" := rfl

set_option maxRecDepth 100000 in
/-- Sanity check of the SHA-256 model against the FIPS 180-4 test vector
for the empty message. -/
theorem sha256_empty_vector :
    get_content_hash "" =
      "e3b0c44298fc1c149afbf4c8996fb92427ae41e4649b934ca495991b7852b855" := by rfl

set_option maxRecDepth 100000 in
/-- Sanity check of the SHA-256 model against the FIPS 180-4 test vector
for "abc". -/
theorem sha256_abc_vector :
    get_content_hash "abc" =
      "ba7816bf8f01cfea414140de5dae2223b00361a396177a9cb410ff61f20015ad" := by rfl

/-! Claim theorems. -/

/-- C1: constructing `CodeParser` for each of the eight supported
language identifiers selects that language's own grammar (never a shared
default), and for any other language string it fails with an error whose
message names the unsupported identifier. -/
theorem grammar_selection_spec :
    (init "python" = .ok .python ∧
     init "javascript" = .ok .javascript ∧
     init "typescript" = .ok .typescript ∧
     init "java" = .ok .java ∧
     init "c" = .ok .c ∧
     init "cpp" = .ok .cpp ∧
     init "go" = .ok .go ∧
     init "rust" = .ok .rust) ∧
    (∀ l : String, l ∉ SUPPORTED_LANGUAGES →
      init l = .error ("Unsupported language: " ++ l ++ ". Supported: "
        ++ "python, javascript, typescript, java, c, cpp, go, rust")) := by
  refine ⟨⟨rfl, rfl, rfl, rfl, rfl, rfl, rfl, rfl⟩, ?_⟩
  intro l hl
  simp only [init, if_neg hl, intercalate_supported]

/-- Witness for C1 at the unsupported identifier `"ruby"`. -/
theorem grammar_selection_spec_witness :
    init "ruby" = .error ("Unsupported language: " ++ "ruby" ++ ". Supported: "
      ++ "python, javascript, typescript, java, c, cpp, go, rust") :=
  grammar_selection_spec.2 "ruby" (by decide)

/-- C2: parsing the empty source in every supported language yields no
functions, classes or imports, complexity 1, and a summary with
`total_lines = 1`; and for every language, tree and source string the
analyzer returns a complete summary (in particular `total_lines ≥ 1`)
rather than failing. -/
theorem parse_empty_source_spec :
    (∀ l ∈ SUPPORTED_LANGUAGES,
      parse l (emptyRoot l) "" =
        { functions := [], classes := [], imports := [], complexity := 1,
          summary := { total_lines := 1, non_empty_lines := 0, node_count := 1, max_depth := 0 } }) ∧
    (∀ (l : String) (root : TSNode) (code : String),
      1 ≤ (parse l root code).summary.total_lines) := by
  constructor
  · intro l hl
    simp only [SUPPORTED_LANGUAGES] at hl
    fin_cases hl <;> rfl
  · intro l root code
    have h := splitOnChar_ne_nil '\n' code.data
    simpa [parse, generate_summary, Nat.succ_le_iff, List.length_pos] using h

/-- Witness for C2 at the Python grammar. -/
theorem parse_empty_source_spec_witness :
    parse "python" (emptyRoot "python") "" =
      { functions := [], classes := [], imports := [], complexity := 1,
        summary := { total_lines := 1, non_empty_lines := 0, node_count := 1, max_depth := 0 } } :=
  parse_empty_source_spec.1 "python" (by decide)

/-- C3: a `binary_expression` node contributes a decision point exactly
when one of its children is one of the logical operator tokens `&&`,
`||`, `and`, `or`; with no such child (arithmetic or comparison
operators) it contributes nothing. -/
theorem binary_expression_decision_spec :
    (∀ (x : String) (sb sr er : Nat) (cs : List TSNode),
      (∃ c ∈ cs, c.type = "&&" ∨ c.type = "||" ∨ c.type = "and" ∨ c.type = "or") →
        countDecisions (.node "binary_expression" x sb sr er cs) =
          1 + countDecisionsList cs) ∧
    (∀ (x : String) (sb sr er : Nat) (cs : List TSNode),
      (∀ c ∈ cs, ¬(c.type = "&&" ∨ c.type = "||" ∨ c.type = "and" ∨ c.type = "or")) →
        countDecisions (.node "binary_expression" x sb sr er cs) =
          countDecisionsList cs) := by
  have hmem : ∀ (cs : List TSNode),
      (cs.any fun c => logicalOperatorTypes.contains c.type) = true ↔
        ∃ c ∈ cs, c.type = "&&" ∨ c.type = "||" ∨ c.type = "and" ∨ c.type = "or" := by
    intro cs
    rw [List.any_eq_true]
    constructor
    · rintro ⟨c, hc, hop⟩
      refine ⟨c, hc, ?_⟩
      simpa [logicalOperatorTypes, List.contains, List.elem_iff] using hop
    · rintro ⟨c, hc, hop⟩
      refine ⟨c, hc, ?_⟩
      simpa [logicalOperatorTypes, List.contains, List.elem_iff] using hop
  have hbin : ∀ (x : String) (sb sr er : Nat) (cs : List TSNode),
      countDecisions (.node "binary_expression" x sb sr er cs) =
        (if (cs.any fun c => logicalOperatorTypes.contains c.type) then 1 else 0)
          + countDecisionsList cs := fun x sb sr er cs => rfl
  constructor
  · intro x sb sr er cs h
    rw [hbin, if_pos ((hmem cs).mpr h)]
  · intro x sb sr er cs h
    have hfalse : ¬ (cs.any fun c => logicalOperatorTypes.contains c.type) = true := by
      rw [hmem cs]
      rintro ⟨c, hc, hop⟩
      exact h c hc hop
    rw [hbin, if_neg hfalse, Nat.zero_add]

/-- Witness for C3: a logical `&&` binary expression contributes a
decision point; an arithmetic `+` binary expression contributes none. -/
theorem binary_expression_decision_spec_witness :
    (countDecisions (.node "binary_expression" "a && b" 0 0 0
        [leaf "identifier" "a" 0 0, leaf "&&" "&&" 2 0, leaf "identifier" "b" 5 0]) =
      1 + countDecisionsList
        [leaf "identifier" "a" 0 0, leaf "&&" "&&" 2 0, leaf "identifier" "b" 5 0]) ∧
    (countDecisions (.node "binary_expression" "a + b" 0 0 0
        [leaf "identifier" "a" 0 0, leaf "+" "+" 2 0, leaf "identifier" "b" 4 0]) =
      countDecisionsList
        [leaf "identifier" "a" 0 0, leaf "+" "+" 2 0, leaf "identifier" "b" 4 0]) :=
  ⟨binary_expression_decision_spec.1 "a && b" 0 0 0 _
      ⟨leaf "&&" "&&" 2 0, by simp [leaf], by simp [leaf, TSNode.type]⟩,
   binary_expression_decision_spec.2 "a + b" 0 0 0 _ (by decide)⟩

/-- C4 counterexample: the filename `"py"` has no `.` (no extension),
yet `detect_language` returns `python` instead of `none` — the whole
filename is looked up in the extension table. -/
theorem detect_language_missing_ext_counterexample :
    ('.' ∉ "py".data) ∧ detect_language "py" = some "python" := by decide

/-- C4 (amended): `detect_language` lower-cases the segment after the
last `.` — the whole filename when it contains no `.` — and looks it up
in the extension table, returning `none` on a miss; the four concrete
examples of the spec hold. -/
theorem detect_language_spec_amended :
    detect_language "script.py" = some "python" ∧
    detect_language "app.jsx" = some "javascript" ∧
    detect_language "lib.rs" = some "rust" ∧
    detect_language "notes.txt" = none ∧
    (∀ f : String, detect_language f =
      LANGUAGE_MAP.lookup
        (String.mk (((splitOnChar '.' f.data).getLastD []).map Char.toLower))) :=
  ⟨by decide, by decide, by decide, by decide, fun f => rfl⟩

/-- C5: on the spec's two-function Python source, extraction yields
exactly the two functions, the first named `calculate_sum` with params
`["a", "b"]` and a docstring containing `"Calculate sum"`, and no classes
and no imports. -/
theorem python_two_function_extraction_spec :
    (parse "python" pyTwoFnTree pyTwoFnSource).functions =
      [{ name := "calculate_sum", params := ["a", "b"], start_line := 1, end_line := 3,
         docstring := some "Calculate sum of two numbers" },
       { name := "multiply", params := ["x", "y"], start_line := 5, end_line := 6,
         docstring := none }] ∧
    (∃ rest, (parse "python" pyTwoFnTree pyTwoFnSource).functions.head? =
      some { name := "calculate_sum", params := ["a", "b"], start_line := 1, end_line := 3,
             docstring := some ("Calculate sum" ++ rest) }) ∧
    (parse "python" pyTwoFnTree pyTwoFnSource).classes = [] ∧
    (parse "python" pyTwoFnTree pyTwoFnSource).imports = [] :=
  ⟨by decide, ⟨" of two numbers", by decide⟩, by decide, by decide⟩

/-- C6 (the code bug): on the spec's `class Person` JavaScript source the
extractor finds exactly one class named `Person`, but its `methods` list
is empty — method names are `property_identifier` nodes in the
JavaScript grammar, `_get_function_name` only matches `identifier`
children, so `constructor` and `greet` both resolve to `"anonymous"` and
are dropped. -/
theorem js_class_methods_empty :
    extract_classes "javascript" jsClassTree jsClassSource =
      [{ name := "Person", start_line := 1, end_line := 9, methods := [] }] ∧
    "constructor" ∉ (extract_classes "javascript" jsClassTree jsClassSource).flatMap
        ClassInfo.methods ∧
    "greet" ∉ (extract_classes "javascript" jsClassTree jsClassSource).flatMap
        ClassInfo.methods := by
  refine ⟨by decide, ?_, ?_⟩ <;> decide

/-- C7: on the spec's Rust source with one struct, one enum and one impl
block, class-like extraction yields all three entries (the impl block
included, carrying the method `new`). -/
theorem rust_class_like_extraction_spec :
    extract_classes "rust" rustClassTree rustClassSource =
      [{ name := "Point", start_line := 1, end_line := 4, methods := [] },
       { name := "Color", start_line := 6, end_line := 9, methods := [] },
       { name := "Point", start_line := 11, end_line := 15, methods := ["new"] }] ∧
    3 ≤ (extract_classes "rust" rustClassTree rustClassSource).length := by
  refine ⟨by decide, ?_⟩
  decide

/-- C8: for Python, Java and Rust alike, a function with an `if` nested
in a `for` nested in an `if` scores strictly higher cyclomatic
complexity than an equivalent function with no branching. -/
theorem complexity_monotonic_spec :
    calculate_complexity pyPlainTree < calculate_complexity pyNestedTree ∧
    calculate_complexity javaPlainTree < calculate_complexity javaNestedTree ∧
    calculate_complexity rustPlainTree < calculate_complexity rustNestedTree := by
  decide

/-- C9: `get_content_hash` is deterministic, equals the SHA-256 of the
UTF-8 encoding of the text, and always produces exactly 64 hexadecimal
characters. -/
theorem content_hash_spec :
    (∀ s t : String, s = t → get_content_hash s = get_content_hash t) ∧
    (∀ s : String, get_content_hash s = sha256hex (encodeUTF8 s)) ∧
    (∀ s : String, (get_content_hash s).length = 64) := by
  refine ⟨fun s t h => h ▸ rfl, fun s => rfl, fun s => ?_⟩
  show (String.mk (hexOfBytes (stateBytes (sha256Words (encodeUTF8 s))))).length = 64
  have hmk : ∀ l : List Char, (String.mk l).length = l.length := fun l => rfl
  rw [hmk, hexOfBytes_length, stateBytes_length]

/-- Witness for C9 at the input `"abc"`. -/
theorem content_hash_spec_witness :
    get_content_hash "abc" = get_content_hash "abc" ∧
    (get_content_hash "abc").length = 64 :=
  ⟨content_hash_spec.1 "abc" "abc" rfl, content_hash_spec.2.2 "abc"⟩

/-- C10: for a filename with no `.`, `detect_language` looks the entire
lower-cased filename up in the extension table; in particular `"py"` and
`"PY"` both map to `python`. -/
theorem detect_language_whole_name_lookup :
    (∀ f : String, '.' ∉ f.data →
      detect_language f =
        LANGUAGE_MAP.lookup (String.mk (f.data.map Char.toLower))) ∧
    detect_language "py" = some "python" ∧
    detect_language "PY" = some "python" := by
  refine ⟨?_, by decide, by decide⟩
  intro f h
  unfold detect_language
  rw [splitOnChar_of_not_mem '.' f.data h]
  rfl

/-- Witness for C10 at the filename `"py"`. -/
theorem detect_language_whole_name_lookup_witness :
    detect_language "py" =
      LANGUAGE_MAP.lookup (String.mk ("py".data.map Char.toLower)) :=
  detect_language_whole_name_lookup.1 "py" (by decide)

end CodeExplain
